import Mathlib

/-!
Shallow embedding of the rendy core (memory dedicated allocator, command
pool hierarchy, resource access chain) and proofs of the specification
claims about it.

Device calls are modelled by a pure oracle (`Device`) deciding the outcome
of each native call, and every embedded operation returns, besides its
result and updated state, the ordered list of device calls it issued.
Panics (Rust `assert!` / `assert_eq!`) are modelled by an `Option` result:
`none` is the loud failure.
-/

namespace Rendy

/-- Byte range, mirroring Rust `Range of u64`: `start` inclusive, `stop`
exclusive (`end` in Rust; renamed because `end` is a Lean keyword). -/
structure Rng where
  start : Nat
  stop : Nat
deriving DecidableEq, Repr

/-- Property flags of a memory object (bitflags, abstracted as a number). -/
abbrev Properties := Nat

/-- One native device call issued by the embedded code, for call counting. -/
inductive DeviceCall where
  | allocateCall (memory_type : Nat) (size : Nat)
  | freeCall (raw : Nat)
  | mapCall (raw : Nat) (range : Rng)
  | unmapCall (raw : Nat)
deriving DecidableEq, Repr

/-- Recoverable device allocation failure (`MemoryError`). -/
inductive MemoryError where
  | outOfDeviceMemory
  | invalidMemoryType
deriving DecidableEq, Repr

/-- Recoverable mapping failure (`MappingError`): the device rejects the
request (non-host-visible memory, invalid range, mapping conflict). -/
inductive MappingError where
  | hostInvisible
  | outOfBounds
  | mappingFailed
deriving DecidableEq, Repr

/-- Oracle for the external device collaborator: pure functions deciding
the outcome of `allocate` and `map` native calls (spec section 6). -/
structure Device where
  allocate : Nat → Nat → Except MemoryError Nat
  mapResult : Nat → Rng → Except MappingError Nat

/-- Memory object: owns one raw device memory handle, records size and
property flags (spec section 3; the `memory` module is not under src). -/
structure Memory where
  raw : Nat
  size : Nat
  properties : Properties
deriving DecidableEq, Repr

/-- Memory constructor `Memory::from_raw(raw, size, properties)`. -/
def Memory.from_raw (raw size : Nat) (properties : Properties) : Memory :=
  ⟨raw, size, properties⟩

/-- Memory destructor `Memory::into_raw`, releasing the raw handle. -/
def Memory.into_raw (m : Memory) : Nat :=
  m.raw

/-- Mapped range token: pointer plus the byte range it covers. -/
structure MappedRange where
  ptr : Nat
  range : Rng
deriving DecidableEq, Repr

/-- Modelled from the spec: `mapped_fitting_range(ptr, range, fitting)`
(the `mapping` module is not under src). Per spec section 4.2, when the
active mapping range fully contains the requested (`fitting`) range the
returned pointer is derived from the existing mapping with no device
call; otherwise no pointer is produced. -/
def mapped_fitting_range (ptr : Nat) (range fitting : Rng) : Option Nat :=
  if range.start ≤ fitting.start ∧ fitting.stop ≤ range.stop then
    some (ptr + (fitting.start - range.start))
  else
    none

/-- Modelled from the spec: `MappedRange::new(memory, device, range)`
(the `mapping` module is not under src). Per spec section 4.2 it issues a
fresh device mapping covering exactly the requested range, and fails with
a mapping error when the device rejects the request. -/
def MappedRange.new (memory : Memory) (d : Device) (range : Rng) :
    Except MappingError MappedRange × List DeviceCall :=
  match d.mapResult memory.raw range with
  | .ok p => (.ok ⟨p, range⟩, [.mapCall memory.raw range])
  | .error e => (.error e, [.mapCall memory.raw range])

/-- Memory block allocated from `DedicatedAllocator`: the memory object
plus at most one recorded active mapping (pointer and range). -/
structure DedicatedBlock where
  memory : Memory
  mapping : Option (Nat × Rng)
deriving DecidableEq, Repr

/-- DedicatedBlock `unwrap_memory`: asserts no mapping is recorded
(`none` models the panic), then returns the inner memory. -/
def DedicatedBlock.unwrap_memory (self : DedicatedBlock) : Option Memory :=
  if self.mapping.isNone then some self.memory else none

/-- DedicatedBlock `from_memory`: make an unmapped block. -/
def DedicatedBlock.from_memory (memory : Memory) : DedicatedBlock :=
  ⟨memory, none⟩

/-- Block `map(device, range)` of `DedicatedBlock`. The outer `Option`
models the `assert!(range.start <= range.end)` panic. Mirrors the source:
if the cloned mapping admits a fitting pointer, return it with no device
call; otherwise take (clear) any current mapping, unmap it on the device,
and attempt a fresh `MappedRange::new`, recording it on success. -/
def DedicatedBlock.map (self : DedicatedBlock) (d : Device) (range : Rng) :
    Option (Except MappingError MappedRange × DedicatedBlock × List DeviceCall) :=
  if range.start ≤ range.stop then
    some <|
      match self.mapping.bind (fun m => mapped_fitting_range m.1 m.2 range) with
      | some ptr => (.ok ⟨ptr, range⟩, self, [])
      | none =>
        let unmapCalls : List DeviceCall :=
          if self.mapping.isSome then [.unmapCall self.memory.raw] else []
        match MappedRange.new self.memory d range with
        | (.ok mr, mc) =>
          (.ok mr, { self with mapping := some (mr.ptr, mr.range) }, unmapCalls ++ mc)
        | (.error e, mc) =>
          (.error e, { self with mapping := none }, unmapCalls ++ mc)
  else
    none

/-- Block `unmap(device)` of `DedicatedBlock`: if a mapping is recorded,
clear it and issue one device unmap call; otherwise do nothing. -/
def DedicatedBlock.unmap (self : DedicatedBlock) : DedicatedBlock × List DeviceCall :=
  if self.mapping.isSome then
    ({ self with mapping := none }, [.unmapCall self.memory.raw])
  else
    (self, [])

/-- Dedicated allocator: memory type, property flags and the running
`used` byte counter. -/
structure DedicatedAllocator where
  memory_type : Nat
  memory_properties : Properties
  used : Nat
deriving DecidableEq, Repr

/-- DedicatedAllocator constructor `new(memory_type, memory_properties)`. -/
def DedicatedAllocator.new (memory_type : Nat) (memory_properties : Properties) :
    DedicatedAllocator :=
  ⟨memory_type, memory_properties, 0⟩

/-- Allocator `alloc(device, size, align)` of `DedicatedAllocator`:
forwards the request to the device native allocation call with the
requested size (the `align` parameter is unused, `_align` in the source);
on success wraps the handle in a fresh unmapped block, adds `size` to
`used` and returns `size` as the consumed amount; on failure propagates
the memory error. -/
def DedicatedAllocator.alloc (self : DedicatedAllocator) (d : Device)
    (size align : Nat) :
    Except MemoryError (DedicatedBlock × Nat) × DedicatedAllocator × List DeviceCall :=
  match d.allocate self.memory_type size with
  | .ok raw =>
    (.ok (DedicatedBlock.from_memory (Memory.from_raw raw size self.memory_properties), size),
     { self with used := self.used + size },
     [.allocateCall self.memory_type size])
  | .error e =>
    (.error e, self, [.allocateCall self.memory_type size])

/-- Allocator `free(device, block)` of `DedicatedAllocator`: unmap the
block, subtract its memory size from `used`, free the raw handle on the
device, and return the freed size. -/
def DedicatedAllocator.free (self : DedicatedAllocator) (block : DedicatedBlock) :
    Nat × DedicatedAllocator × List DeviceCall :=
  let u := block.unmap
  let size := u.1.memory.size
  (size, { self with used := self.used - size }, u.2 ++ [.freeCall u.1.memory.into_raw])

/-- Drop of `DedicatedAllocator`: `assert_eq!(self.used, 0)`; `none`
models the loud assertion failure when `used` is nonzero. -/
def DedicatedAllocator.dropCheck (self : DedicatedAllocator) : Option Unit :=
  if self.used = 0 then some () else none

/-- Modelled from the spec: the resource `Usage` bitmask (the resource
module is not under src) — a bitmask with zero element and bitwise-or
combine, abstracted as a number under `Nat.lor`. -/
abbrev Usage := Nat

/-- Modelled from the spec: `no_usage()`, the zero element of `Usage`. -/
def no_usage : Usage := 0

/-- Modelled from the spec: a `Link` (the chain `link` submodule is not
under src) — one synchronization epoch: an aggregated usage mask plus the
submission/queue references belonging to that epoch; `Link::usage`
returns the aggregated mask (the `usage` field projection). -/
structure Link where
  usage : Usage
  nodes : List Nat
deriving DecidableEq, Repr

/-- Chain: owned insertion-ordered sequence of links for one resource. -/
structure Chain where
  links : List Link
deriving DecidableEq, Repr

/-- Chain constructor `Chain::new()`: empty chain. -/
def Chain.new : Chain :=
  ⟨[]⟩

/-- Chain `last_link_mut`: the tail link, if any. -/
def Chain.last_link_mut (self : Chain) : Option Link :=
  self.links.getLast?

/-- Chain `add_link`: append a new link at the tail. -/
def Chain.add_link (self : Chain) (l : Link) : Chain :=
  ⟨self.links ++ [l]⟩

/-- Chain `usage()`: fold the links' usage masks with bitwise-or starting
from `no_usage` (`self.links.iter().map(Link::usage).fold(no_usage, bitor)`). -/
def Chain.usage (self : Chain) : Usage :=
  (self.links.map Link.usage).foldl Nat.lor no_usage

/-- Simple pool wrapper over one native command pool handle: inner
handle, capability tag, reset-policy tag, owning queue family id and the
`Relevant` liveness marker. -/
structure Pool (P C R : Type) where
  inner : P
  capability : C
  reset : R
  family : Nat
  relevant : Unit
deriving DecidableEq, Repr

/-- Untyped capability flags carried by a pool before narrowing. -/
abbrev CapabilityFlags := Nat

/-- Pool `cast_capability`: tests the target capability against the
pool's runtime flags through `from_flags` (the `capability` module is not
under src, so the narrowing test is passed in as a function, modelled
from the spec); on success rebuilds the pool with the narrowed capability
tag and every other field unchanged, on failure returns the original pool
as the error value. -/
def Pool.cast_capability (from_flags : CapabilityFlags → Option C)
    (self : Pool P CapabilityFlags R) :
    Except (Pool P CapabilityFlags R) (Pool P C R) :=
  match from_flags self.capability with
  | some capability =>
    .ok ⟨self.inner, capability, self.reset, self.family, self.relevant⟩
  | none => .error self

/-- Command pool that owns allocated buffers: the wrapped pool, the
reusable buffer sequence and the ring cursor `next`. -/
structure OwningPool (P B C R : Type) where
  inner : Pool P C R
  buffers : List B
  next : Nat
deriving DecidableEq, Repr

/-- OwningPool `cast_capability`: delegates to the inner pool's cast and
rebuilds the owning pool around either outcome, keeping `buffers` and
`next` unchanged. -/
def OwningPool.cast_capability (from_flags : CapabilityFlags → Option C)
    (self : OwningPool P B CapabilityFlags R) :
    Except (OwningPool P B CapabilityFlags R) (OwningPool P B C R) :=
  match self.inner.cast_capability from_flags with
  | .ok inner => .ok ⟨inner, self.buffers, self.next⟩
  | .error inner => .error ⟨inner, self.buffers, self.next⟩

/-- OwningPool bound to frame execution: the owning pool plus the
optional bound frame index. -/
structure FramePool (P B C : Type) where
  inner : OwningPool P B C Unit
  frame : Option Nat
deriving DecidableEq, Repr

/-- FramePool `cast_capability`: delegates to the inner owning pool's
cast and rebuilds the frame pool around either outcome, keeping the frame
binding unchanged. -/
def FramePool.cast_capability (from_flags : CapabilityFlags → Option C)
    (self : FramePool P B CapabilityFlags) :
    Except (FramePool P B CapabilityFlags) (FramePool P B C) :=
  match self.inner.cast_capability from_flags with
  | .ok inner => .ok ⟨inner, self.frame⟩
  | .error inner => .error ⟨inner, self.frame⟩

/-- FramePool `bind(frame)`: `assert!(self.frame.is_none())` (`none`
models the panic when the pool is still bound), then record the frame's
index; the returned `FrameBound` handle is modelled by the updated pool. -/
def FramePool.bind (self : FramePool P B C) (frame : Nat) :
    Option (FramePool P B C) :=
  if self.frame.isSome then none
  else some { self with frame := some frame }

/-- FramePool `reset(complete)`: `assert_eq!(self.frame.take(),
Some(complete.index()))` — `none` models the loud failure on a mismatched
completion token; on a match the binding is cleared. The subsequent
pool-wide buffer recycling is left `unimplemented!()` in
src/command/src/pool.rs; modelled from the spec: it performs the
OwningPool reset, recycling every buffer in place, which changes none of
the fields represented here. -/
def FramePool.reset (self : FramePool P B C) (complete : Nat) :
    Option (FramePool P B C) :=
  if self.frame = some complete then some { self with frame := none }
  else none

/-! Helper lemmas shared by the claim theorems. -/

instance : RightCommutative Nat.lor :=
  ⟨fun b a a' => by
    show b ||| a ||| a' = b ||| a' ||| a
    rw [Nat.lor_assoc, Nat.lor_comm a a', ← Nat.lor_assoc]⟩

lemma foldl_add_link_links (ls : List Link) (c : Chain) :
    (ls.foldl Chain.add_link c).links = c.links ++ ls := by
  induction ls generalizing c with
  | nil => simp
  | cons l ls ih => simp [Chain.add_link, ih]

lemma chain_usage_eq (ls : List Link) :
    (ls.foldl Chain.add_link Chain.new).usage
      = (ls.map Link.usage).foldl Nat.lor no_usage := by
  unfold Chain.usage
  rw [foldl_add_link_links]
  simp [Chain.new]

/-- Claim C2: for every chain built by a sequence of `add_link` calls,
`usage()` equals the bitwise-or fold (identity `no_usage`) of every added
link's usage; the empty chain's usage is `no_usage`; and the aggregate is
independent of the order in which the link usage values were added. -/
theorem claim2_chain_usage :
    Chain.new.usage = no_usage ∧
    (∀ ls : List Link,
      (ls.foldl Chain.add_link Chain.new).usage
        = (ls.map Link.usage).foldl Nat.lor no_usage) ∧
    (∀ ls ls' : List Link, ls.Perm ls' →
      (ls.foldl Chain.add_link Chain.new).usage
        = (ls'.foldl Chain.add_link Chain.new).usage) := by
  refine ⟨rfl, chain_usage_eq, fun ls ls' h => ?_⟩
  rw [chain_usage_eq, chain_usage_eq]
  exact (h.map Link.usage).foldl_eq no_usage

/-- Witness for C2 at concrete links with usage masks 1 and 2 in the two
orders: the permuted chains agree on `usage()`. -/
theorem claim2_chain_usage_witness :
    (([⟨1, []⟩, ⟨2, [0]⟩] : List Link).Perm [⟨2, [0]⟩, ⟨1, []⟩]) ∧
    (([⟨1, []⟩, ⟨2, [0]⟩] : List Link).foldl Chain.add_link Chain.new).usage
      = (([⟨2, [0]⟩, ⟨1, []⟩] : List Link).foldl Chain.add_link Chain.new).usage := by
  refine ⟨.swap _ _ _, ?_⟩
  exact claim2_chain_usage.2.2 _ _ (.swap _ _ _)

/-- Claim C5: dropping a `DedicatedAllocator` fails loudly (assertion
failure, modelled by `none`) exactly when `used` is nonzero, and succeeds
silently exactly when `used` is zero. -/
theorem claim5_drop_loud (self : DedicatedAllocator) :
    (self.dropCheck = none ↔ self.used ≠ 0) ∧
    (self.dropCheck = some () ↔ self.used = 0) := by
  unfold DedicatedAllocator.dropCheck
  by_cases h : self.used = 0 <;> simp [h]

/-- Claim C9: `DedicatedAllocator::alloc` ignores its alignment
parameter — for any two alignment values the whole outcome (block, consumed
size, updated allocator, call trace) is identical — and its trace is exactly
one native device allocation call with the requested size. -/
theorem claim9_alloc_ignores_align (d : Device) (self : DedicatedAllocator)
    (size a1 a2 : Nat) :
    self.alloc d size a1 = self.alloc d size a2 ∧
    (self.alloc d size a1).2.2 = [DeviceCall.allocateCall self.memory_type size] := by
  refine ⟨rfl, ?_⟩
  unfold DedicatedAllocator.alloc
  cases d.allocate self.memory_type size <;> rfl

/-- Claim C10: `unwrap_memory` panics (modelled by `none`) exactly when
the block holds an active mapping, and otherwise returns the inner
memory; `from_memory` always produces an unmapped block, so
`from_memory` followed by `unwrap_memory` returns the original memory. -/
theorem claim10_unwrap_memory (blk : DedicatedBlock) (m : Memory) :
    (blk.unwrap_memory = none ↔ blk.mapping.isSome = true) ∧
    (blk.mapping = none → blk.unwrap_memory = some blk.memory) ∧
    (DedicatedBlock.from_memory m).mapping = none ∧
    (DedicatedBlock.from_memory m).unwrap_memory = some m := by
  refine ⟨?_, ?_, rfl, rfl⟩
  · unfold DedicatedBlock.unwrap_memory
    cases blk.mapping <;> simp
  · intro h
    unfold DedicatedBlock.unwrap_memory
    simp [h]

/-- Witness for C10 at a concrete unmapped block: `unwrap_memory`
returns the inner memory. -/
theorem claim10_unwrap_memory_witness :
    (⟨⟨1, 4, 0⟩, none⟩ : DedicatedBlock).unwrap_memory = some ⟨1, 4, 0⟩ :=
  (claim10_unwrap_memory ⟨⟨1, 4, 0⟩, none⟩ ⟨1, 4, 0⟩).2.1 rfl

lemma unmap_memory_eq (blk : DedicatedBlock) : blk.unmap.1.memory = blk.memory := by
  unfold DedicatedBlock.unmap
  cases h : blk.mapping <;> simp [h]

/-- Claim C8: `unmap` is idempotent — a no-op with no device call when no
mapping is recorded; otherwise it issues exactly one device unmap call
and clears the recorded mapping, so a second consecutive `unmap` is a
no-op. -/
theorem claim8_unmap_idempotent (blk : DedicatedBlock) :
    (blk.mapping = none → blk.unmap = (blk, [])) ∧
    (∀ p r, blk.mapping = some (p, r) →
      blk.unmap = ({ blk with mapping := none }, [DeviceCall.unmapCall blk.memory.raw])) ∧
    blk.unmap.1.unmap = (blk.unmap.1, []) := by
  obtain ⟨mem, mp⟩ := blk
  cases mp <;> simp [DedicatedBlock.unmap]

/-- Witness for C8 at a concrete mapped block: one unmap call is issued
and the recorded mapping is cleared. -/
theorem claim8_unmap_idempotent_witness :
    (⟨⟨2, 8, 0⟩, some (7, ⟨0, 8⟩)⟩ : DedicatedBlock).unmap
      = (⟨⟨2, 8, 0⟩, none⟩, [DeviceCall.unmapCall 2]) :=
  (claim8_unmap_idempotent ⟨⟨2, 8, 0⟩, some (7, ⟨0, 8⟩)⟩).2.1 7 ⟨0, 8⟩ rfl

/-- Claim C3: for `map(device, range)` with a valid range — if the block
holds an active mapping whose range fully contains the requested range,
the returned pointer is derived from the existing mapping, no device call
is issued and the block is unchanged; otherwise the trace is any needed
unmap of the current mapping followed by exactly one device map call over
exactly the requested range, which on success is recorded as the new
active mapping, and whose failure is propagated with no mapping
recorded. -/
theorem claim3_map_algorithm (d : Device) (blk : DedicatedBlock) (range : Rng)
    (hr : range.start ≤ range.stop) :
    (∀ p r, blk.mapping = some (p, r) →
      r.start ≤ range.start → range.stop ≤ r.stop →
      blk.map d range
        = some (.ok ⟨p + (range.start - r.start), range⟩, blk, [])) ∧
    ((blk.mapping.bind fun m => mapped_fitting_range m.1 m.2 range) = none →
      ∃ res blk',
        blk.map d range = some (res, blk',
          (if blk.mapping.isSome then [DeviceCall.unmapCall blk.memory.raw] else [])
            ++ [DeviceCall.mapCall blk.memory.raw range]) ∧
        (∀ p, d.mapResult blk.memory.raw range = .ok p →
          res = .ok ⟨p, range⟩ ∧ blk'.mapping = some (p, range)) ∧
        (∀ e, d.mapResult blk.memory.raw range = .error e →
          res = .error e ∧ blk'.mapping = none)) := by
  constructor
  · intro p r h h1 h2
    have hfit : (blk.mapping.bind fun m => mapped_fitting_range m.1 m.2 range)
        = some (p + (range.start - r.start)) := by
      simp [h, mapped_fitting_range, h1, h2]
    simp [DedicatedBlock.map, hr, hfit]
  · intro hfit
    cases hres : d.mapResult blk.memory.raw range with
    | ok p =>
      refine ⟨.ok ⟨p, range⟩, { blk with mapping := some (p, range) }, ?_, ?_, ?_⟩
      · simp [DedicatedBlock.map, hr, hfit, MappedRange.new, hres]
      · intro q hq
        cases hq
        exact ⟨rfl, rfl⟩
      · intro e he
        cases he
    | error e =>
      refine ⟨.error e, { blk with mapping := none }, ?_, ?_, ?_⟩
      · simp [DedicatedBlock.map, hr, hfit, MappedRange.new, hres]
      · intro q hq
        cases hq
      · intro e' he
        cases he
        exact ⟨rfl, rfl⟩

/-- Witness for C3 on the fitting path: a request contained in the
active mapping returns a derived pointer with an empty call trace and an
unchanged block. -/
theorem claim3_map_algorithm_witness :
    (⟨⟨0, 64, 0⟩, some (100, ⟨0, 16⟩)⟩ : DedicatedBlock).map
        (⟨fun _ _ => .ok 7, fun _ _ => .ok 200⟩ : Device) ⟨4, 8⟩
      = some (.ok ⟨104, ⟨4, 8⟩⟩, ⟨⟨0, 64, 0⟩, some (100, ⟨0, 16⟩)⟩, []) :=
  (claim3_map_algorithm (⟨fun _ _ => .ok 7, fun _ _ => .ok 200⟩ : Device)
    ⟨⟨0, 64, 0⟩, some (100, ⟨0, 16⟩)⟩ ⟨4, 8⟩ (by decide)).1 100 ⟨0, 16⟩ rfl
    (by decide) (by decide)

/-- Claim C4: `free` unmaps the block (its unmap trace comes first),
releases the raw handle on the device, decrements `used` by the block's
memory size and returns that size; a successful `alloc` increases `used`
by exactly the returned actual size, and freeing the block produced by
the `alloc` restores `used` to its value before the `alloc`. -/
theorem claim4_alloc_free_roundtrip (d : Device) (self : DedicatedAllocator)
    (size align raw : Nat)
    (h : d.allocate self.memory_type size = .ok raw) :
    (∀ (a : DedicatedAllocator) (b : DedicatedBlock),
      a.free b = (b.memory.size,
        { a with used := a.used - b.memory.size },
        b.unmap.2 ++ [DeviceCall.freeCall b.memory.raw])) ∧
    ∃ blk : DedicatedBlock,
      self.alloc d size align
        = (.ok (blk, size), { self with used := self.used + size },
            [DeviceCall.allocateCall self.memory_type size]) ∧
      blk.memory.size = size ∧ blk.mapping = none ∧
      ({ self with used := self.used + size } : DedicatedAllocator).free blk
        = (size, self, [DeviceCall.freeCall raw]) := by
  have hfree : ∀ (a : DedicatedAllocator) (b : DedicatedBlock),
      a.free b = (b.memory.size,
        { a with used := a.used - b.memory.size },
        b.unmap.2 ++ [DeviceCall.freeCall b.memory.raw]) := by
    intro a b
    simp only [DedicatedAllocator.free, Memory.into_raw, unmap_memory_eq]
  refine ⟨hfree, DedicatedBlock.from_memory (Memory.from_raw raw size self.memory_properties),
    ?_, rfl, rfl, ?_⟩
  · unfold DedicatedAllocator.alloc
    rw [h]
  · rw [hfree]
    simp [DedicatedBlock.from_memory, Memory.from_raw, DedicatedBlock.unmap]

/-- Witness for C4: a concrete allocator with 64 used bytes frees a
concrete 64-byte block, returning 64 with `used` back to 0 and exactly
one device free call. -/
theorem claim4_alloc_free_roundtrip_witness :
    (⟨0, 0, 64⟩ : DedicatedAllocator).free ⟨⟨7, 64, 0⟩, none⟩
      = (64, (⟨0, 0, 0⟩ : DedicatedAllocator), [DeviceCall.freeCall 7]) := by
  have h := (claim4_alloc_free_roundtrip
    (⟨fun _ _ => .ok 7, fun _ _ => .ok 200⟩ : Device)
    (DedicatedAllocator.new 0 0) 64 16 7 rfl).1 ⟨0, 0, 64⟩ ⟨⟨7, 64, 0⟩, none⟩
  simpa [DedicatedBlock.unmap] using h

/-- Claim C6: `bind` while already bound fails loudly; `reset` with a
token whose index differs from the bound index fails loudly; `reset` with
the matching token clears the binding, after which `bind` to any frame
succeeds. -/
theorem claim6_frame_pool_protocol {P B C : Type} (self : FramePool P B C) (i : Nat) :
    (∀ j, self.frame = some i → self.bind j = none) ∧
    (∀ c, self.frame = some i → c ≠ i → self.reset c = none) ∧
    (self.frame = some i →
      self.reset i = some { self with frame := none } ∧
      ∀ j, ({ self with frame := none } : FramePool P B C).bind j
        = some { self with frame := some j }) := by
  refine ⟨?_, ?_, ?_⟩
  · intro j h
    simp [FramePool.bind, h]
  · intro c h hne
    simp [FramePool.reset, h, Ne.symm hne]
  · intro h
    exact ⟨by simp [FramePool.reset, h], fun j => by simp [FramePool.bind]⟩

/-- Witness for C6, spec scenario B shape: a pool bound to frame 3
rejects `bind 5` and `reset 5`, accepts `reset 3`, and then accepts
`bind 5`. -/
theorem claim6_frame_pool_protocol_witness :
    (⟨⟨⟨0, 3, (), 1, ()⟩, [], 0⟩, some 3⟩ : FramePool Nat Nat Nat).bind 5 = none ∧
    (⟨⟨⟨0, 3, (), 1, ()⟩, [], 0⟩, some 3⟩ : FramePool Nat Nat Nat).reset 5 = none ∧
    (⟨⟨⟨0, 3, (), 1, ()⟩, [], 0⟩, some 3⟩ : FramePool Nat Nat Nat).reset 3
      = some ⟨⟨⟨0, 3, (), 1, ()⟩, [], 0⟩, none⟩ ∧
    (⟨⟨⟨0, 3, (), 1, ()⟩, [], 0⟩, none⟩ : FramePool Nat Nat Nat).bind 5
      = some ⟨⟨⟨0, 3, (), 1, ()⟩, [], 0⟩, some 5⟩ := by
  have h := claim6_frame_pool_protocol
    (⟨⟨⟨0, 3, (), 1, ()⟩, [], 0⟩, some 3⟩ : FramePool Nat Nat Nat) 3
  exact ⟨h.1 5 rfl, h.2.1 5 rfl (by decide), (h.2.2 rfl).1, (h.2.2 rfl).2 5⟩

/-- Claim C7: a failed `cast_capability` returns the original pool with
every field unchanged as the error value, for all three pool layers; a
successful cast changes only the capability tag, keeping inner handle,
reset policy, family id, buffer sequence, ring cursor and frame binding. -/
theorem claim7_cast_capability_preserves {P B C R : Type}
    (from_flags : CapabilityFlags → Option C) :
    (∀ p : Pool P CapabilityFlags R,
      (from_flags p.capability = none →
        p.cast_capability from_flags = .error p) ∧
      (∀ c, from_flags p.capability = some c →
        p.cast_capability from_flags
          = .ok ⟨p.inner, c, p.reset, p.family, p.relevant⟩)) ∧
    (∀ q : OwningPool P B CapabilityFlags R,
      (from_flags q.inner.capability = none →
        q.cast_capability from_flags = .error q) ∧
      (∀ c, from_flags q.inner.capability = some c →
        q.cast_capability from_flags
          = .ok ⟨⟨q.inner.inner, c, q.inner.reset, q.inner.family, q.inner.relevant⟩,
              q.buffers, q.next⟩)) ∧
    (∀ fp : FramePool P B CapabilityFlags,
      (from_flags fp.inner.inner.capability = none →
        fp.cast_capability from_flags = .error fp) ∧
      (∀ c, from_flags fp.inner.inner.capability = some c →
        fp.cast_capability from_flags
          = .ok ⟨⟨⟨fp.inner.inner.inner, c, fp.inner.inner.reset, fp.inner.inner.family,
              fp.inner.inner.relevant⟩, fp.inner.buffers, fp.inner.next⟩, fp.frame⟩)) := by
  refine ⟨fun p => ⟨fun h => ?_, fun c h => ?_⟩,
    fun q => ⟨fun h => ?_, fun c h => ?_⟩,
    fun fp => ⟨fun h => ?_, fun c h => ?_⟩⟩ <;>
    simp [Pool.cast_capability, OwningPool.cast_capability, FramePool.cast_capability, h]

/-- Witness for C7: a concrete frame pool survives a failing cast
unchanged, and a concrete plain pool is retyped by a succeeding cast with
only the capability field changed. -/
theorem claim7_cast_capability_preserves_witness :
    (⟨⟨⟨10, 6, (), 2, ()⟩, [1, 2], 1⟩, some 4⟩
        : FramePool Nat Nat CapabilityFlags).cast_capability
        (fun _ => (none : Option Nat))
      = .error ⟨⟨⟨10, 6, (), 2, ()⟩, [1, 2], 1⟩, some 4⟩ ∧
    (⟨10, 6, (), 2, ()⟩ : Pool Nat CapabilityFlags Unit).cast_capability
        (fun f => some (f + 1))
      = .ok ⟨10, 7, (), 2, ()⟩ := by
  refine ⟨((@claim7_cast_capability_preserves Nat Nat Nat Unit
      (fun _ => (none : Option Nat))).2.2
      ⟨⟨⟨10, 6, (), 2, ()⟩, [1, 2], 1⟩, some 4⟩).1 rfl, ?_⟩
  exact ((@claim7_cast_capability_preserves Nat Nat Nat Unit
    (fun f => some (f + 1))).1 ⟨10, 6, (), 2, ()⟩).2 7 rfl

/-- Counterexample to C1 as stated: at a concrete block holding an active
mapping at pointer 5 over bytes 0..10, a map request for the disjoint
range 50..60 that the device rejects propagates the error, but the
block's recorded active mapping is cleared to `none`, not left unchanged
(the source takes and unmaps the old mapping before attempting the new
device mapping). -/
theorem claim1_counterexample :
    ∃ out, (⟨⟨0, 100, 0⟩, some (5, ⟨0, 10⟩)⟩ : DedicatedBlock).map
        (⟨fun _ _ => .error .outOfDeviceMemory,
          fun _ _ => .error .mappingFailed⟩ : Device) ⟨50, 60⟩ = some out ∧
      out.1 = .error .mappingFailed ∧
      out.2.1.mapping ≠ (⟨⟨0, 100, 0⟩, some (5, ⟨0, 10⟩)⟩ : DedicatedBlock).mapping :=
  ⟨(.error .mappingFailed, ⟨⟨0, 100, 0⟩, none⟩,
    [.unmapCall 0, .mapCall 0 ⟨50, 60⟩]), rfl, rfl, by decide⟩

/-- Claim C1 amended: a failed `alloc` propagates the memory error with
the allocator (its `used` counter included) exactly as before; a failed
`map` propagates the mapping error and records no partial mapping — the
block's memory is unchanged, its recorded mapping is `none` after the
failure, and the block is exactly as before whenever it held no active
mapping at the call (an active non-fitting mapping has already been
unmapped and cleared before the failing device call). -/
theorem claim1_amended_failure_state (d : Device) :
    (∀ (self : DedicatedAllocator) (size align : Nat) (e : MemoryError),
      d.allocate self.memory_type size = .error e →
      self.alloc d size align
        = (.error e, self, [DeviceCall.allocateCall self.memory_type size])) ∧
    (∀ (blk : DedicatedBlock) (range : Rng) (e : MappingError)
        (out : Except MappingError MappedRange × DedicatedBlock × List DeviceCall),
      blk.map d range = some out → out.1 = .error e →
      out.2.1.memory = blk.memory ∧ out.2.1.mapping = none ∧
      (blk.mapping = none → out.2.1 = blk)) := by
  constructor
  · intro self size align e h
    unfold DedicatedAllocator.alloc
    rw [h]
  · intro blk range e out hmap herr
    unfold DedicatedBlock.map at hmap
    by_cases hr : range.start ≤ range.stop
    · rw [if_pos hr] at hmap
      cases hfit : blk.mapping.bind fun m => mapped_fitting_range m.1 m.2 range with
      | some ptr =>
        rw [hfit] at hmap
        cases hmap.symm
        cases herr
      | none =>
        rw [hfit] at hmap
        cases hres : d.mapResult blk.memory.raw range with
        | ok p =>
          rw [show MappedRange.new blk.memory d range
              = (.ok ⟨p, range⟩, [.mapCall blk.memory.raw range]) by
            unfold MappedRange.new
            rw [hres]] at hmap
          cases hmap.symm
          cases herr
        | error e' =>
          rw [show MappedRange.new blk.memory d range
              = (.error e', [.mapCall blk.memory.raw range]) by
            unfold MappedRange.new
            rw [hres]] at hmap
          cases hmap.symm
          refine ⟨rfl, rfl, fun hnone => ?_⟩
          obtain ⟨mem, mp⟩ := blk
          cases hnone
          rfl
    · rw [if_neg hr] at hmap
      cases hmap

/-- Witness for C1 amended: a concrete failed allocation propagates the
error with the allocator unchanged. -/
theorem claim1_amended_failure_state_witness :
    (DedicatedAllocator.new 2 0).alloc
        (⟨fun _ _ => .error .outOfDeviceMemory,
          fun _ _ => .error .mappingFailed⟩ : Device) 32 8
      = (.error .outOfDeviceMemory, DedicatedAllocator.new 2 0,
          [DeviceCall.allocateCall 2 32]) :=
  (claim1_amended_failure_state
    (⟨fun _ _ => .error .outOfDeviceMemory,
      fun _ _ => .error .mappingFailed⟩ : Device)).1
    (DedicatedAllocator.new 2 0) 32 8 .outOfDeviceMemory rfl

end Rendy
